import Mathlib

/-!
Shallow embedding of the AI-Study-Hub client (`src/app.js`), covering the
LLM gateway (`callLLM`, `callOpenAI`, `callGemini`), the input-validated
action `generateSummary`, and the PDF extraction loop of `processPDF`.

JavaScript numbers are modelled as exact rationals (`Rat`); no arithmetic
is performed on them in the modelled code, only pass-through and
truthiness tests, so this is faithful for every value the code handles.
JSON values are a small AST; `fetch` is modelled by an explicit
`respond : HttpRequest → HttpResponse` argument, and each gateway call
additionally returns the list of HTTP requests it issued.
-/

/-- One role-tagged prompt message, as built at the `callLLM` call sites. -/
structure PromptMessage where
  role : String
  content : String
deriving Repr, DecidableEq

/-- The generation options object passed to `callLLM`; a JS object where
either field may be absent (`none` models `undefined`). -/
structure GenerationOptions where
  max_tokens : Option Rat := none
  temperature : Option Rat := none
deriving Repr, DecidableEq

/-- The `currentUser` record created by `login`: `{ apiKey, provider }`. -/
structure Session where
  apiKey : String
  provider : String
deriving Repr, DecidableEq

/-- JSON value AST with exact rational numbers. -/
inductive Json where
  | null : Json
  | bool (b : Bool) : Json
  | num (q : Rat) : Json
  | str (s : String) : Json
  | arr (elems : List Json) : Json
  | obj (fields : List (String × Json)) : Json
deriving Repr

/-- Property access `j.name` on a JSON value: defined only on objects,
first matching key wins (JS object keys are unique anyway). -/
def Json.getField : Json → String → Option Json
  | .obj fields, name => fields.lookup name
  | _, _ => none

/-- Index access `j[i]` on a JSON value: defined only on arrays. -/
def Json.item : Json → Nat → Option Json
  | .arr elems, i => elems.get? i
  | _, _ => none

/-- JS truthiness of a JSON value (`null`, `false`, `0` and `""` are falsy). -/
def Json.truthy : Json → Bool
  | .null => false
  | .bool b => b
  | .num q => decide (q ≠ 0)
  | .str s => decide (s ≠ "")
  | .arr _ => true
  | .obj _ => true

mutual

/-- JS string conversion `String(x)` of a JSON value, as used inside a
template literal. Integers render without a fractional part; array
elements are joined by commas. -/
def jsString : Json → String
  | .str s => s
  | .null => "null"
  | .bool b => if b then "true" else "false"
  | .num q => if q.den = 1 then toString q.num else toString q
  | .arr elems => jsStringList elems
  | .obj _ => "[object Object]"

/-- Comma-joined rendering of a JS array's elements. -/
def jsStringList : List Json → String
  | [] => ""
  | [e] => jsString e
  | e :: rest => jsString e ++ "," ++ jsStringList rest

end

/-- An outgoing `fetch` request: method, URL, headers and JSON body. -/
structure HttpRequest where
  method : String
  url : String
  headers : List (String × String)
  body : Json

/-- A `fetch` response: HTTP status and parsed JSON body. -/
structure HttpResponse where
  status : Nat
  body : Json

/-- `response.ok` of the Fetch API: status in the range 200–299. -/
def HttpResponse.ok (r : HttpResponse) : Bool :=
  200 ≤ r.status && r.status ≤ 299

/-- The distinguishable throw sites of the gateway. `authError` is the
`throw new Error('Please login first!')` in `callLLM`; `providerError`
is the non-2xx throw in `callOpenAI` / `callGemini` (tag, HTTP status,
message text); `extractError` stands for the TypeError raised when the
success-path field chain hits a missing property. -/
inductive GatewayError where
  | authError : GatewayError
  | providerError (tag : String) (status : Nat) (msg : String) : GatewayError
  | extractError : GatewayError
deriving Repr, DecidableEq

/-- The `err.message` string the page would display for each error,
exactly as the JS code builds it. -/
def GatewayError.jsMessage : GatewayError → String
  | .authError => "Please login first!"
  | .providerError tag status msg => tag ++ ": " ++ toString status ++ " " ++ msg
  | .extractError => "TypeError"

/-- JS `x || d` defaulting on an optional numeric option field:
an absent field or a zero value falls back to the default. -/
def jsOr (v : Option Rat) (d : Rat) : Rat :=
  match v with
  | none => d
  | some x => if x = 0 then d else x

/-- The provider-supplied message extraction shared by both error paths:
`error.error?.message || 'Unknown error'` applied to the response body. -/
def errMessageOf (body : Json) : String :=
  match body.getField "error" with
  | some e =>
    match e.getField "message" with
    | some m => if m.truthy then jsString m else "Unknown error"
    | none => "Unknown error"
  | none => "Unknown error"

/-- JSON encoding of the message sequence sent verbatim to OpenAI. -/
def messagesJson (prompt : List PromptMessage) : Json :=
  .arr (prompt.map fun p => .obj [("role", .str p.role), ("content", .str p.content)])

/-- The request `callOpenAI` issues: POST to the Chat Completions
endpoint, bearer-token authorization, body with model, the verbatim
message array, and truthiness-defaulted `max_tokens` / `temperature`. -/
def openAIRequest (prompt : List PromptMessage) (apiKey : String)
    (options : GenerationOptions) : HttpRequest :=
  { method := "POST"
    url := "https://api.openai.com/v1/chat/completions"
    headers := [("Content-Type", "application/json"),
                ("Authorization", "Bearer " ++ apiKey)]
    body := .obj [("model", .str "gpt-3.5-turbo"),
                  ("messages", messagesJson prompt),
                  ("max_tokens", .num (jsOr options.max_tokens 2000)),
                  ("temperature", .num (jsOr options.temperature (7/10)))] }

/-- The OpenAI success-path field chain `data.choices[0].message.content`. -/
def openAIExtract (body : Json) : Option Json :=
  body.getField "choices" >>= (·.item 0) >>= (·.getField "message") >>= (·.getField "content")

/-- `callOpenAI`: issue the request, throw `OpenAI: {status} {message}` on a
non-ok response, otherwise return the extracted content. The second
component lists the HTTP requests the call issued. -/
def callOpenAI (prompt : List PromptMessage) (apiKey : String)
    (options : GenerationOptions) (respond : HttpRequest → HttpResponse) :
    Except GatewayError Json × List HttpRequest :=
  let req := openAIRequest prompt apiKey options
  let response := respond req
  if !response.ok then
    (.error (.providerError "OpenAI" response.status (errMessageOf response.body)), [req])
  else
    match openAIExtract response.body with
    | some content => (.ok content, [req])
    | none => (.error .extractError, [req])

/-- The flattening `prompt.map(p => p.role + ": " + p.content).join("\n\n")`
of `callGemini`. -/
def geminiFlatten (prompt : List PromptMessage) : String :=
  String.intercalate "\n\n" (prompt.map fun p => p.role ++ ": " ++ p.content)

/-- The request `callGemini` issues: POST to the Generative Language
endpoint with the API key as the `key` query parameter, no authorization
header, and the flattened prompt as a single text part. -/
def geminiRequest (prompt : List PromptMessage) (apiKey : String)
    (options : GenerationOptions) : HttpRequest :=
  { method := "POST"
    url := "https://generativelanguage.googleapis.com/v1beta/models/gemini-2.5-flash:generateContent?key="
             ++ apiKey
    headers := [("Content-Type", "application/json")]
    body := .obj [
      ("contents", .arr [.obj [("parts", .arr [.obj [("text", .str (geminiFlatten prompt))]])]]),
      ("generationConfig", .obj [
        ("maxOutputTokens", .num (jsOr options.max_tokens 2000)),
        ("temperature", .num (jsOr options.temperature (7/10)))])] }

/-- The Gemini success-path field chain
`data.candidates[0].content.parts[0].text`. -/
def geminiExtract (body : Json) : Option Json :=
  body.getField "candidates" >>= (·.item 0) >>= (·.getField "content")
    >>= (·.getField "parts") >>= (·.item 0) >>= (·.getField "text")

/-- `callGemini`: issue the request, throw `Gemini: {status} {message}` on a
non-ok response, otherwise return the extracted text. -/
def callGemini (prompt : List PromptMessage) (apiKey : String)
    (options : GenerationOptions) (respond : HttpRequest → HttpResponse) :
    Except GatewayError Json × List HttpRequest :=
  let req := geminiRequest prompt apiKey options
  let response := respond req
  if !response.ok then
    (.error (.providerError "Gemini" response.status (errMessageOf response.body)), [req])
  else
    match geminiExtract response.body with
    | some content => (.ok content, [req])
    | none => (.error .extractError, [req])

/-- `callLLM`: throw `'Please login first!'` with no network call when no
session is active, otherwise dispatch on `currentUser.provider === 'openai'`
(every other provider string takes the Gemini branch). -/
def callLLM (currentUser : Option Session) (prompt : List PromptMessage)
    (options : GenerationOptions) (respond : HttpRequest → HttpResponse) :
    Except GatewayError Json × List HttpRequest :=
  match currentUser with
  | none => (.error .authError, [])
  | some user =>
    if user.provider = "openai" then
      callOpenAI prompt user.apiKey options respond
    else
      callGemini prompt user.apiKey options respond

/-- JS `String.prototype.trim` on the inputs the page handles: leading and
trailing whitespace characters removed. -/
def jsTrim (s : String) : String :=
  ((s.data.dropWhile Char.isWhitespace).reverse.dropWhile Char.isWhitespace).reverse.asString

/-- The omitted-options value: `callLLM(prompt)` gives `options = {}`. -/
def emptyOptions : GenerationOptions := {}

/-- The options object `{ max_tokens: 4000, temperature: 0.7 }` passed by
the summary, MCQ and flashcard call sites. -/
def summaryOptions : GenerationOptions :=
  { max_tokens := some 4000, temperature := some (7/10) }

/-- The prompt `generateSummary` builds from the input text. -/
def summaryPrompt (inputText : String) : List PromptMessage :=
  [{ role := "system",
     content := "You are a cute and helpful academic tutor. Create adorable, structured summaries with emojis and clear organization. Make it fun to read! Do not use asterisk symbols (*) for formatting. Use plain text only." },
   { role := "user",
     content := "Summarize this content in a cute, organized way with emojis and clear sections. Do not use asterisk symbols (*) for formatting:\n\n" ++ inputText }]

/-- Observable outcome of a user action: whether `callLLM` was reached,
which HTTP requests went out, the notifications shown (message, type),
and the gateway result when one was produced. -/
structure ActionResult where
  llmCalled : Bool
  requests : List HttpRequest
  notifications : List (String × String)
  output : Option (Except GatewayError Json)

/-- `generateSummary`: with blank (trimmed-empty) input it shows a warning
and returns before any network activity; otherwise it calls `callLLM`
with `summaryPrompt` and `{ max_tokens: 4000, temperature: 0.7 }` and
notifies according to the result. -/
def generateSummary (inputText : String) (currentUser : Option Session)
    (respond : HttpRequest → HttpResponse) : ActionResult :=
  if jsTrim inputText = "" then
    { llmCalled := false
      requests := []
      notifications := [("Please enter some content first! 💭", "warning")]
      output := none }
  else
    let r := callLLM currentUser (summaryPrompt inputText) summaryOptions respond
    { llmCalled := true
      requests := r.2
      notifications :=
        match r.1 with
        | .ok content =>
          if content.truthy && decide (jsTrim (jsString content) ≠ "") then
            [("Summary created successfully! ✨", "success")]
          else []
        | .error _ =>
          [("Failed to generate summary. Please check your API key.", "error")]
      output := some r.1 }

/-- Observable outcome of `processPDF`: the stored `extractedPdfText` and
the notification shown. -/
structure PdfResult where
  extractedPdfText : String
  notifications : List (String × String)
deriving Repr, DecidableEq

/-- `processPDF` on an already-parsed document, modelled as the list of
pages, each page the list of its text items (`item.str`). The loop visits
pages `1..min(numPages, 10)`, joins each page's items with spaces and
appends a double newline, and the success notification never mentions
truncation. -/
def processPDF (pages : List (List String)) : PdfResult :=
  let maxPages := min pages.length 10
  let fullText :=
    String.join ((pages.take maxPages).map
      fun items => String.intercalate " " items ++ "\n\n")
  { extractedPdfText := fullText
    notifications := [("PDF processed successfully! ✨", "success")] }

/-- A small concrete prompt used by the witnesses. -/
def demoPrompt : List PromptMessage := [{ role := "user", content := "hi" }]

/-- A well-formed OpenAI 200-response body whose extracted content is `"hello"`. -/
def openAIOkBody : Json :=
  .obj [("choices", .arr [.obj [("message",
    .obj [("role", .str "assistant"), ("content", .str "hello")])]])]

/-- A well-formed Gemini 200-response body whose extracted text is `"hello"`. -/
def geminiOkBody : Json :=
  .obj [("candidates", .arr [.obj [("content",
    .obj [("parts", .arr [.obj [("text", .str "hello")]])])]])]

/-- A mocked network that answers every request with the OpenAI-shaped 200
response. -/
def okRespondOpenAI : HttpRequest → HttpResponse := fun _ =>
  { status := 200, body := openAIOkBody }

/-- A mocked network that answers every request with the Gemini-shaped 200
response. -/
def okRespondGemini : HttpRequest → HttpResponse := fun _ =>
  { status := 200, body := geminiOkBody }

/-- An error body in the shape both providers use: `{error: {message: ...}}`. -/
def errBody : Json := .obj [("error", .obj [("message", .str "bad key")])]

/-- A mocked network that answers every request with a 404 error response. -/
def errRespond : HttpRequest → HttpResponse := fun _ =>
  { status := 404, body := errBody }

/-- Helper: `x || d` keeps a supplied nonzero (truthy) value. -/
theorem jsOr_some_of_ne (x d : Rat) (h : x ≠ 0) : jsOr (some x) d = x := by
  simp [jsOr, h]

/-- Helper: `x || d` replaces a supplied zero (falsy) value by the default. -/
theorem jsOr_some_zero (d : Rat) : jsOr (some 0) d = d := by
  simp [jsOr]

/-- C1: for every non-empty prompt, options and active session, when the
selected provider responds 2xx, `callLLM` returns exactly the provider's
extracted text field — `choices[0].message.content` for openai,
`candidates[0].content.parts[0].text` for gemini — and issues exactly
that provider's request. -/
theorem c1_complete_returns_extracted_text
    (prompt : List PromptMessage) (_hne : prompt ≠ []) (apiKey t : String)
    (options : GenerationOptions) (respond : HttpRequest → HttpResponse) :
    ((respond (openAIRequest prompt apiKey options)).ok = true →
     openAIExtract (respond (openAIRequest prompt apiKey options)).body = some (.str t) →
     callLLM (some { apiKey := apiKey, provider := "openai" }) prompt options respond
       = (.ok (.str t), [openAIRequest prompt apiKey options]))
    ∧
    ((respond (geminiRequest prompt apiKey options)).ok = true →
     geminiExtract (respond (geminiRequest prompt apiKey options)).body = some (.str t) →
     callLLM (some { apiKey := apiKey, provider := "gemini" }) prompt options respond
       = (.ok (.str t), [geminiRequest prompt apiKey options])) := by
  constructor
  · intro hok hex
    simp [callLLM, callOpenAI, hok, hex]
  · intro hok hex
    simp [callLLM, callGemini, hok, hex]

/-- C1 witness: both provider paths at a concrete prompt, key and mocked
200 network return the extracted `"hello"`. -/
theorem c1_witness :
    callLLM (some { apiKey := "k", provider := "openai" }) demoPrompt emptyOptions okRespondOpenAI
      = (.ok (.str "hello"), [openAIRequest demoPrompt "k" emptyOptions])
    ∧ callLLM (some { apiKey := "k", provider := "gemini" }) demoPrompt emptyOptions okRespondGemini
      = (.ok (.str "hello"), [geminiRequest demoPrompt "k" emptyOptions]) := by
  have hoa := c1_complete_returns_extracted_text demoPrompt
    (by simp [demoPrompt]) "k" "hello" emptyOptions okRespondOpenAI
  have hg := c1_complete_returns_extracted_text demoPrompt
    (by simp [demoPrompt]) "k" "hello" emptyOptions okRespondGemini
  exact ⟨hoa.1 rfl rfl, hg.2 rfl rfl⟩

/-- C2: with no active session (`currentUser` null), `callLLM` raises the
authentication error (`'Please login first!'`) and issues no request. -/
theorem c2_no_session_raises_auth_error
    (prompt : List PromptMessage) (options : GenerationOptions)
    (respond : HttpRequest → HttpResponse) :
    callLLM none prompt options respond = (.error .authError, []) := rfl

/-- C8: provider dispatch is a two-way branch on equality with "openai":
any session whose provider is any other string routes to the Gemini path. -/
theorem c8_non_openai_routes_to_gemini
    (apiKey provider : String) (h : provider ≠ "openai")
    (prompt : List PromptMessage) (options : GenerationOptions)
    (respond : HttpRequest → HttpResponse) :
    callLLM (some { apiKey := apiKey, provider := provider }) prompt options respond
      = callGemini prompt apiKey options respond := by
  simp [callLLM, h]

/-- C8 witness: the unknown provider string "bogus" is routed to the
Gemini path. -/
theorem c8_witness :
    callLLM (some { apiKey := "k", provider := "bogus" }) demoPrompt emptyOptions okRespondGemini
      = callGemini demoPrompt "k" emptyOptions okRespondGemini :=
  c8_non_openai_routes_to_gemini "k" "bogus" (by decide) demoPrompt emptyOptions okRespondGemini

/-- C10: `processPDF` reads at most the first `min(numPages, 10)` pages:
its entire observable result — the stored `extractedPdfText` and the
notification shown — is identical to processing only the first ten pages,
so no text beyond page ten is stored and no truncation notice exists. -/
theorem c10_pdf_truncated_to_ten_pages (pages : List (List String)) :
    processPDF pages = processPDF (pages.take 10) := by
  have h1 : pages.take (min pages.length 10) = pages.take 10 := by
    rcases Nat.le_total pages.length 10 with h | h
    · rw [Nat.min_eq_left h, List.take_length, List.take_of_length_le h]
    · rw [Nat.min_eq_right h]
  have h2 : (pages.take 10).take (min (pages.take 10).length 10) = pages.take 10 := by
    apply List.take_of_length_le
    simp [List.length_take]
  simp only [processPDF]
  rw [h1, h2]

/-- C3: with an active session, a non-2xx response from the selected
provider makes `callLLM` raise the provider error carrying that response's
status code and the provider-supplied message text (`error.message` of the
response body), for both the OpenAI and the Gemini path. -/
theorem c3_non2xx_raises_provider_error
    (prompt : List PromptMessage) (apiKey m : String) (e : Json)
    (options : GenerationOptions) (respond : HttpRequest → HttpResponse) :
    ((respond (openAIRequest prompt apiKey options)).ok = false →
     (respond (openAIRequest prompt apiKey options)).body.getField "error" = some e →
     e.getField "message" = some (.str m) → m ≠ "" →
     callLLM (some { apiKey := apiKey, provider := "openai" }) prompt options respond
       = (.error (.providerError "OpenAI"
            (respond (openAIRequest prompt apiKey options)).status m),
          [openAIRequest prompt apiKey options]))
    ∧
    ((respond (geminiRequest prompt apiKey options)).ok = false →
     (respond (geminiRequest prompt apiKey options)).body.getField "error" = some e →
     e.getField "message" = some (.str m) → m ≠ "" →
     callLLM (some { apiKey := apiKey, provider := "gemini" }) prompt options respond
       = (.error (.providerError "Gemini"
            (respond (geminiRequest prompt apiKey options)).status m),
          [geminiRequest prompt apiKey options])) := by
  constructor
  · intro hok he hm hne
    have hmsg : errMessageOf (respond (openAIRequest prompt apiKey options)).body = m := by
      simp [errMessageOf, he, hm, Json.truthy, hne, jsString]
    simp [callLLM, callOpenAI, hok, hmsg]
  · intro hok he hm hne
    have hmsg : errMessageOf (respond (geminiRequest prompt apiKey options)).body = m := by
      simp [errMessageOf, he, hm, Json.truthy, hne, jsString]
    simp [callLLM, callGemini, hok, hmsg]

/-- C3 witness: a mocked 404 with body `{error: {message: "bad key"}}`
makes both provider paths raise the provider error with status 404 and
message "bad key". -/
theorem c3_witness :
    callLLM (some { apiKey := "k", provider := "openai" }) demoPrompt emptyOptions errRespond
      = (.error (.providerError "OpenAI" 404 "bad key"), [openAIRequest demoPrompt "k" emptyOptions])
    ∧ callLLM (some { apiKey := "k", provider := "gemini" }) demoPrompt emptyOptions errRespond
      = (.error (.providerError "Gemini" 404 "bad key"), [geminiRequest demoPrompt "k" emptyOptions]) := by
  have h := c3_non2xx_raises_provider_error demoPrompt "k" "bad key"
    (.obj [("message", .str "bad key")]) emptyOptions errRespond
  exact ⟨h.1 rfl rfl rfl (by decide), h.2 rfl rfl rfl (by decide)⟩

/-- C4: the OpenAI request is an HTTPS POST to the Chat Completions
endpoint whose Authorization header is `"Bearer " + apiKey`, and whose
JSON body carries the prompt messages verbatim in order together with the
supplied (truthy) `max_tokens` and `temperature`. -/
theorem c4_openai_request_bearer_auth_and_verbatim_body
    (prompt : List PromptMessage) (apiKey : String) (mt temp : Rat)
    (hmt : mt ≠ 0) (htemp : temp ≠ 0) :
    (openAIRequest prompt apiKey { max_tokens := some mt, temperature := some temp }).method = "POST"
    ∧ (openAIRequest prompt apiKey { max_tokens := some mt, temperature := some temp }).url
        = "https://api.openai.com/v1/chat/completions"
    ∧ (openAIRequest prompt apiKey { max_tokens := some mt, temperature := some temp }).headers.lookup "Authorization"
        = some ("Bearer " ++ apiKey)
    ∧ (openAIRequest prompt apiKey { max_tokens := some mt, temperature := some temp }).body.getField "messages"
        = some (.arr (prompt.map fun p => .obj [("role", .str p.role), ("content", .str p.content)]))
    ∧ (openAIRequest prompt apiKey { max_tokens := some mt, temperature := some temp }).body.getField "max_tokens"
        = some (.num mt)
    ∧ (openAIRequest prompt apiKey { max_tokens := some mt, temperature := some temp }).body.getField "temperature"
        = some (.num temp) := by
  refine ⟨rfl, rfl, rfl, rfl, ?_, ?_⟩
  · show some (Json.num (jsOr (some mt) 2000)) = some (Json.num mt)
    rw [jsOr_some_of_ne _ _ hmt]
  · show some (Json.num (jsOr (some temp) (7/10))) = some (Json.num temp)
    rw [jsOr_some_of_ne _ _ htemp]

/-- C4 witness: at the summary call site's options `{max_tokens: 4000,
temperature: 0.7}` the outgoing request carries the bearer header and the
supplied values. -/
theorem c4_witness :
    (openAIRequest demoPrompt "k" summaryOptions).method = "POST"
    ∧ (openAIRequest demoPrompt "k" summaryOptions).url
        = "https://api.openai.com/v1/chat/completions"
    ∧ (openAIRequest demoPrompt "k" summaryOptions).headers.lookup "Authorization"
        = some ("Bearer " ++ "k")
    ∧ (openAIRequest demoPrompt "k" summaryOptions).body.getField "messages"
        = some (.arr (demoPrompt.map fun p => .obj [("role", .str p.role), ("content", .str p.content)]))
    ∧ (openAIRequest demoPrompt "k" summaryOptions).body.getField "max_tokens"
        = some (.num 4000)
    ∧ (openAIRequest demoPrompt "k" summaryOptions).body.getField "temperature"
        = some (.num (7/10)) :=
  c4_openai_request_bearer_auth_and_verbatim_body demoPrompt "k" 4000 (7/10)
    (by norm_num) (by norm_num)

/-- C5: the Gemini request carries the API key as the `key` query
parameter of the URL, sends no Authorization header, and its body contains
the prompt flattened into one text block, each message as
`"{role}: {content}"`, joined by `"\n\n"` (one blank line between
consecutive messages). -/
theorem c5_gemini_request_key_query_no_auth_flattened
    (prompt : List PromptMessage) (apiKey : String) (options : GenerationOptions) :
    (geminiRequest prompt apiKey options).url
      = "https://generativelanguage.googleapis.com/v1beta/models/gemini-2.5-flash:generateContent?key="
          ++ apiKey
    ∧ (geminiRequest prompt apiKey options).headers = [("Content-Type", "application/json")]
    ∧ (geminiRequest prompt apiKey options).headers.lookup "Authorization" = none
    ∧ (geminiRequest prompt apiKey options).body.getField "contents"
      = some (.arr [.obj [("parts", .arr [.obj [("text",
          .str (String.intercalate "\n\n"
            (prompt.map fun p => p.role ++ ": " ++ p.content)))]])]])
    ∧ (∀ a b : PromptMessage, geminiFlatten [a, b]
        = a.role ++ ": " ++ a.content ++ "\n\n" ++ (b.role ++ ": " ++ b.content)) := by
  refine ⟨rfl, rfl, rfl, rfl, ?_⟩
  intro a b
  simp [geminiFlatten, String.intercalate, String.intercalate.go]

/-- C6: options omitted (`{}`) default to `max_tokens = 2000` and
`temperature = 0.7` on both provider paths; the summary/MCQ/flashcard
call-site options `{max_tokens: 4000, temperature: 0.7}` are carried
verbatim on both. -/
theorem c6_option_defaults_and_call_site_values
    (prompt : List PromptMessage) (apiKey : String) :
    (openAIRequest prompt apiKey emptyOptions).body.getField "max_tokens" = some (.num 2000)
    ∧ (openAIRequest prompt apiKey emptyOptions).body.getField "temperature" = some (.num (7/10))
    ∧ (geminiRequest prompt apiKey emptyOptions).body.getField "generationConfig"
        = some (.obj [("maxOutputTokens", .num 2000), ("temperature", .num (7/10))])
    ∧ (openAIRequest prompt apiKey summaryOptions).body.getField "max_tokens" = some (.num 4000)
    ∧ (openAIRequest prompt apiKey summaryOptions).body.getField "temperature" = some (.num (7/10))
    ∧ (geminiRequest prompt apiKey summaryOptions).body.getField "generationConfig"
        = some (.obj [("maxOutputTokens", .num 4000), ("temperature", .num (7/10))]) := by
  refine ⟨rfl, rfl, rfl, ?_, ?_, ?_⟩
  · show some (Json.num (jsOr (some 4000) 2000)) = some (Json.num 4000)
    rw [jsOr_some_of_ne _ _ (by norm_num)]
  · show some (Json.num (jsOr (some (7/10)) (7/10))) = some (Json.num (7/10))
    rw [jsOr_some_of_ne _ _ (by norm_num)]
  · show some (Json.obj [("maxOutputTokens", Json.num (jsOr (some 4000) 2000)),
        ("temperature", Json.num (jsOr (some (7/10)) (7/10)))])
      = some (Json.obj [("maxOutputTokens", Json.num 4000), ("temperature", Json.num (7/10))])
    rw [jsOr_some_of_ne _ _ (by norm_num), jsOr_some_of_ne _ _ (by norm_num)]

/-- C7: `generateSummary` with blank (trimmed-empty) input shows the
warning notification and returns: no `callLLM` call, no HTTP request, no
output. -/
theorem c7_blank_input_refused_locally
    (inputText : String) (currentUser : Option Session)
    (respond : HttpRequest → HttpResponse) (h : jsTrim inputText = "") :
    generateSummary inputText currentUser respond
      = { llmCalled := false, requests := [],
          notifications := [("Please enter some content first! 💭", "warning")],
          output := none } := by
  simp [generateSummary, h]

/-- C7 witness: whitespace-only input with an active session is refused
locally. -/
theorem c7_witness :
    generateSummary "   " (some { apiKey := "k", provider := "openai" }) okRespondOpenAI
      = { llmCalled := false, requests := [],
          notifications := [("Please enter some content first! 💭", "warning")],
          output := none } :=
  c7_blank_input_refused_locally "   " (some { apiKey := "k", provider := "openai" })
    okRespondOpenAI (by decide)

/-- C9: option defaulting is a truthiness test on both provider paths: an
explicitly supplied `max_tokens = 0` is sent as 2000 and an explicitly
supplied `temperature = 0` is sent as 0.7. -/
theorem c9_zero_options_replaced_by_defaults
    (prompt : List PromptMessage) (apiKey : String) :
    (openAIRequest prompt apiKey { max_tokens := some 0, temperature := some 0 }).body.getField "max_tokens"
        = some (.num 2000)
    ∧ (openAIRequest prompt apiKey { max_tokens := some 0, temperature := some 0 }).body.getField "temperature"
        = some (.num (7/10))
    ∧ (geminiRequest prompt apiKey { max_tokens := some 0, temperature := some 0 }).body.getField "generationConfig"
        = some (.obj [("maxOutputTokens", .num 2000), ("temperature", .num (7/10))]) := by
  refine ⟨?_, ?_, ?_⟩
  · show some (Json.num (jsOr (some 0) 2000)) = some (Json.num 2000)
    rw [jsOr_some_zero]
  · show some (Json.num (jsOr (some 0) (7/10))) = some (Json.num (7/10))
    rw [jsOr_some_zero]
  · show some (Json.obj [("maxOutputTokens", Json.num (jsOr (some 0) 2000)),
        ("temperature", Json.num (jsOr (some 0) (7/10)))])
      = some (Json.obj [("maxOutputTokens", Json.num 2000), ("temperature", Json.num (7/10))])
    rw [jsOr_some_zero, jsOr_some_zero]
